import Mathlib

/-!
Shallow embedding of the better-fetch request execution pipeline
(src/packages/better-fetch/src/fetch.ts: `betterFetch` and `handleError`).

JavaScript effects are modelled explicitly: the pipeline is a state-passing
function over a trace of observable events (transport invocations, timeout
arming/clearing, body reads, hook runs, retry decisions, sleeps) together
with an exception channel (abort re-throw, BetterFetchError, validation
error).  Collaborator modules that are not part of the source under
verification (retry.ts, plugins.ts, utils.ts helpers) are either modelled
from the spec (marked as such) or abstracted as environment parameters.
-/

/-- JSON-like values, the payloads the pipeline decodes and parses. -/
inductive JValue where
  | null
  | str (s : String)
  | num (n : Int)
  | boolean (b : Bool)
  | obj (fields : List (String × JValue))
  | arr (elems : List JValue)
deriving Repr, Inhabited

/-- A JavaScript thrown value, as observed by the `catch` in `betterFetch`:
whether it is a DOMException named AbortError, whether it is an `Error`
(which selects `.message` over `String(e)`), and the two renderings. -/
structure Thrown where
  isAbortDOMException : Bool
  isError : Bool
  message : String
  asString : String
deriving Repr

/-- Which cancellation signal an object is wired to: the caller-supplied
signal from the options, or the `AbortController` created inside
`betterFetch` for the current attempt. -/
inductive SignalSrc where
  | caller (id : Nat)
  | internal
deriving Repr, DecidableEq

/-- Result of `detectResponseType` (utils.ts, external classifier):
selects the decoding strategy for the OK branch. -/
inductive RespType where
  | json
  | text
  | blob
  | arrayBuffer
  | formData
deriving Repr, DecidableEq

/-- A transport response.  `bodyText` is what `.text()` yields; `rawBody`
abstracts the value produced by the non-text readers
(`.blob()/.arrayBuffer()/.formData()`); `responseType` abstracts the
content-type inspection done by the external classifier. -/
structure Response where
  ok : Bool
  status : Int
  statusText : String
  bodyText : String
  rawBody : JValue
  responseType : RespType
deriving Repr

/-- A request body value.  `hasPipe` models `typeof body.pipe === "function"`
(a Node-style stream); `hasPipeTo` models a web-stream `pipeTo` capability
on the body object. -/
structure BodyVal where
  hasPipe : Bool := false
  hasPipeTo : Bool := false
  payload : JValue := .null
deriving Repr

/-- Modelled from the spec: retry configuration (retry.ts is not part of the
source under src/).  A plain numeric configuration is sugar for Linear with
that many attempts and zero interval; Linear carries `count`, `interval`
and an optional status-code allow-list; Exponential carries `maxAttempts`,
`baseDelay`, `maxDelay`, `factor` and the optional allow-list. -/
inductive RetryOptions where
  | numeric (n : Nat)
  | linear (count : Nat) (interval : Nat) (statusCodes : Option (List Int))
  | exponential (maxAttempts : Nat) (baseDelay : Nat) (maxDelay : Nat)
      (factor : Nat) (statusCodes : Option (List Int))
deriving Repr

/-- Modelled from the spec: the status-code allow-list only applies when a
response exists; absence of a response never blocks a retry. -/
def statusAllowed (codes : Option (List Int)) (response : Option Response) : Bool :=
  match codes, response with
  | none, _ => true
  | some _, none => true
  | some cs, some r => cs.contains r.status

/-- Modelled from the spec: `shouldAttemptRetry(attempt, response)` is true
while `attempt < count` (resp. `maxAttempts`) and the status condition
holds. -/
def shouldAttemptRetry (r : RetryOptions) (attempt : Nat) (response : Option Response) : Bool :=
  match r with
  | .numeric n => decide (attempt < n)
  | .linear count _ codes => decide (attempt < count) && statusAllowed codes response
  | .exponential maxAttempts _ _ _ codes =>
      decide (attempt < maxAttempts) && statusAllowed codes response

/-- Modelled from the spec: constant `interval` for Linear (zero for the
numeric sugar), `min (baseDelay * factor ^ attempt) maxDelay` for
Exponential. -/
def getDelay (r : RetryOptions) (attempt : Nat) : Nat :=
  match r with
  | .numeric _ => 0
  | .linear _ interval _ => interval
  | .exponential _ baseDelay maxDelay factor _ => min (baseDelay * factor ^ attempt) maxDelay

/-- Options for hook invocation (`hookOptions` in the options bag). -/
structure HookOptions where
  cloneResponse : Bool := false
deriving Repr

/-- The first-order fields of the options bag (everything except plugins and
hook functions, which are stratified out to avoid a circular type).  These
are the fields `betterFetch` spreads into the Request Context and reads
from the resolved/original options.  `hasPipeTo` records whether the bag
itself carries a callable `pipeTo` property (the spread makes it a context
property, which line 146 of fetch.ts inspects). -/
structure OptionsCore where
  method : Option String := none
  body : Option BodyVal := none
  timeout : Option Nat := none
  signal : Option Nat := none
  throw : Bool := false
  retry : Option RetryOptions := none
  retryAttempt : Option Nat := none
  output : Option (JValue → Except (List String) JValue) := none
  disableValidation : Bool := false
  jsonParser : Option (String → JValue) := none
  hookOptions : HookOptions := {}
  duplex : Option String := none
  hasPipeTo : Bool := false

/-- The Request Context: the spread of the resolved options
(`{...opts, url, headers, body, method, signal}`), with the computed
fields overriding.  `opts` holds the spread-in option fields (so
`context.output` is `context.opts.output`, `context.duplex` is
`context.opts.duplex`, etc.). -/
structure Context where
  opts : OptionsCore
  url : String
  headers : List (String × String)
  body : Option BodyVal
  method : String
  signal : SignalSrc

/-- What an `onResponse` hook returns: nothing (no change), a bare
response (replaces the working response), or an object carrying a
`response` field (its `response` replaces the working response). -/
inductive RespHookRet where
  | noChange
  | resp (r : Response)
  | wrapped (r : Response)

/-- An `onRequest` hook: returns a replacement Request Context object or
something that is not an object (modelled `none`), which leaves the
context unchanged. -/
def OnRequestHook := Context → Option Context

/-- An `onResponse` hook. -/
def OnResponseHook := Response → RespHookRet

/-- A plugin's hook contributions (one optional hook per category; the
effect-only hooks `onSuccess/onError/onRetry` are identified by labels,
which the event trace records when they run). -/
structure HookSet where
  onRequest : Option OnRequestHook := none
  onResponse : Option OnResponseHook := none
  onSuccess : Option Nat := none
  onError : Option Nat := none
  onRetry : Option Nat := none

/-- Modelled from the spec: a plugin (plugins.ts is not part of the source
under src/).  `init` may rewrite the URL and/or merge additional options;
`hooks` are the plugin's hook contributions. -/
structure Plugin where
  init : String → OptionsCore → String × OptionsCore
  hooks : HookSet := {}

/-- The full options bag: first-order core plus plugins plus call-site
hooks. -/
structure FetchOptions where
  core : OptionsCore := {}
  plugins : List Plugin := []
  onRequest : Option OnRequestHook := none
  onResponse : Option OnResponseHook := none
  onSuccess : Option Nat := none
  onError : Option Nat := none
  onRetry : Option Nat := none

/-- The aggregated hook lists the pipeline iterates (entries may be absent,
mirroring the `if (hook)` guards in fetch.ts). -/
structure Hooks where
  onRequest : List (Option OnRequestHook)
  onResponse : List (Option OnResponseHook)
  onSuccess : List (Option Nat)
  onError : List (Option Nat)
  onRetry : List (Option Nat)

/-- Result of plugin initialization. -/
structure InitResult where
  url : String
  options : FetchOptions
  hooks : Hooks

/-- Modelled from the spec: `initializePlugins` (plugins.ts is not part of
the source under src/).  Applies each plugin's `init(url, options)` in
order, each able to rewrite the URL and merge options; hook arrays are
concatenated plugins-first, call-site last. -/
def initializePlugins (url : String) (options : Option FetchOptions) : InitResult :=
  let opts0 := options.getD {}
  let resolved := opts0.plugins.foldl
    (fun acc p => p.init acc.1 acc.2) (url, opts0.core)
  { url := resolved.1
    options := { opts0 with core := resolved.2 }
    hooks :=
      { onRequest := opts0.plugins.map (fun p => p.hooks.onRequest) ++ [opts0.onRequest]
        onResponse := opts0.plugins.map (fun p => p.hooks.onResponse) ++ [opts0.onResponse]
        onSuccess := opts0.plugins.map (fun p => p.hooks.onSuccess) ++ [opts0.onSuccess]
        onError := opts0.plugins.map (fun p => p.hooks.onError) ++ [opts0.onError]
        onRetry := opts0.plugins.map (fun p => p.hooks.onRetry) ++ [opts0.onRetry] } }

/-- The normalized error value (`errorContext.error`): parsed error-body
fields (when the non-OK body was JSON-parseable) overridden by the
response's status/statusText, or the synthesized network error carrying
`status 0`, `statusText "Network Error"`, a message and a cause. -/
structure ErrVal where
  obj : Option JValue := none
  status : Int
  statusText : String
  message : Option String := none
  cause : Option Thrown := none

/-- The Error Context handed to the error-handling routine. -/
structure ErrorContext where
  response : Option Response
  responseText : Option String
  request : Context
  error : ErrVal

/-- The third argument of a thrown `BetterFetchError`: either the
caller-supplied `throwErr` value or the normalized error object
(`throwErr ?? errorContext.error`). -/
inductive BFEBody where
  | fromVal (v : JValue)
  | fromErr (e : ErrVal)

/-- Exceptions the pipeline can propagate to its caller. -/
inductive FetchExn where
  | rethrown (t : Thrown)
  | betterFetchError (status : Int) (statusText : String) (body : BFEBody)
  | validationError (issues : List String)
  | fuelExhausted

/-- The pipeline's normal return value: `{data, error: null}` on success,
`{data: null, error}` on a handled error, or the bare data when `throw`
is set on a successful call. -/
inductive FetchOutput where
  | okPair (data : JValue)
  | errorPair (error : ErrVal)
  | rawData (data : JValue)

/-- Observable events of one pipeline execution, in chronological order. -/
inductive Event where
  | timeoutArmed (ms : Nat) (target : SignalSrc)
  | timeoutCleared
  | transportCall (idx : Nat) (url : String) (signal : SignalSrc) (duplex : Option String)
  | bodyRead (text : String)
  | onSuccessRun (id : Nat)
  | onErrorRun (id : Nat) (status : Int) (statusText : String)
  | onRetryRun (id : Nat)
  | retryDecision (attempt : Nat) (take : Bool)
  | sleep (ms : Nat)
deriving Repr

/-- Execution state: the event trace so far and the number of transport
invocations so far. -/
structure St where
  trace : List Event
  nCalls : Nat

/-- The pipeline's effect monad: state passing with an exception channel
whose state survives a throw (so the trace at the point of a re-thrown
abort is observable). -/
def M (α : Type) : Type := St → Except FetchExn α × St

def pureM {α : Type} (a : α) : M α := fun s => (.ok a, s)

def bindM {α β : Type} (x : M α) (f : α → M β) : M β := fun s =>
  match x s with
  | (.ok a, s1) => f a s1
  | (.error e, s1) => (.error e, s1)

instance : Monad M where
  pure := pureM
  bind := bindM

def throwM {α : Type} (e : FetchExn) : M α := fun s => (.error e, s)

def emit (ev : Event) : M Unit := fun s =>
  (.ok (), { s with trace := s.trace ++ [ev] })

def getCallCount : M Nat := fun s => (.ok s.nCalls, s)

def incCallCount : M Unit := fun s => (.ok (), { s with nCalls := s.nCalls + 1 })

/-- The environment: collaborator functions that are external to the
pipeline source (request builders, the transport primitive and the JSON
utilities).  The transport is indexed by the number of prior transport
invocations, so retried attempts can observe different outcomes. -/
structure Env where
  getURL : String → OptionsCore → String
  getBody : OptionsCore → Option BodyVal
  getHeaders : OptionsCore → List (String × String)
  getMethod : String → OptionsCore → String
  transport : Nat → String → Context → Except Thrown Response
  jsonParse : String → JValue
  isJSONParsable : String → Bool

/-- fetch.ts lines 137-144: run the `onRequest` hooks in order; a hook
returning an object wholesale replaces the working context. -/
def runOnRequestHooks : List (Option OnRequestHook) → Context → Context
  | [], c => c
  | none :: hs, c => runOnRequestHooks hs c
  | some f :: hs, c =>
      match f c with
      | some c1 => runOnRequestHooks hs c1
      | none => runOnRequestHooks hs c

/-- fetch.ts lines 196-210: run the `onResponse` hooks in order; a bare
response or an object's `response` field replaces the working response. -/
def runOnResponseHooks : List (Option OnResponseHook) → Response → Response
  | [], r => r
  | none :: hs, r => runOnResponseHooks hs r
  | some f :: hs, r =>
      match f r with
      | .noChange => runOnResponseHooks hs r
      | .resp r1 => runOnResponseHooks hs r1
      | .wrapped r1 => runOnResponseHooks hs r1

/-- fetch.ts lines 46-56: run every present `onError` hook with the error
context (trace records the hook label and the error's status fields). -/
def runOnErrorHooks : List (Option Nat) → ErrVal → M Unit
  | [], _ => pureM ()
  | none :: hs, e => runOnErrorHooks hs e
  | some i :: hs, e => bindM (emit (.onErrorRun i e.status e.statusText)) (fun _ => runOnErrorHooks hs e)

/-- fetch.ts lines 67-74: run every present `onRetry` hook, but only when a
response is present in the error context. -/
def runOnRetryHooks : List (Option Nat) → Option Response → M Unit
  | [], _ => pureM ()
  | none :: hs, r => runOnRetryHooks hs r
  | some _ :: hs, none => runOnRetryHooks hs none
  | some i :: hs, some r => bindM (emit (.onRetryRun i)) (fun _ => runOnRetryHooks hs (some r))

/-- fetch.ts lines 249-258: run every present `onSuccess` hook. -/
def runOnSuccessHooks : List (Option Nat) → M Unit
  | [] => pureM ()
  | none :: hs => runOnSuccessHooks hs
  | some i :: hs => bindM (emit (.onSuccessRun i)) (fun _ => runOnSuccessHooks hs)

/-- fetch.ts lines 145-152: duplex inference.  The stream check inspects a
`pipeTo` capability on the CONTEXT object and a `pipe` function on the
ORIGINAL options' body; when it fires and the context has no explicit
`duplex`, the context's duplex is set to `"half"`. -/
def duplexAdjust (context : Context) (options : Option FetchOptions) : Context :=
  if context.opts.hasPipeTo
      || (((options.bind (fun o => o.core.body)).map (fun b => b.hasPipe)).getD false) then
    match context.opts.duplex with
    | none => { context with opts := { context.opts with duplex := some "half" } }
    | some _ => context
  else context

/-- Modelled from the spec: `getTimeout` (utils.ts is not part of the source
under src/) schedules cancellation of the internally created controller
when a timeout duration is configured. -/
def armTimeout (core : OptionsCore) : M Unit :=
  match core.timeout with
  | some ms => emit (.timeoutArmed ms .internal)
  | none => pureM ()

/-- The `clearTimeout` disarm action returned by `getTimeout`. -/
def clearTimeoutM : M Unit := emit .timeoutCleared

/-- fetch.ts lines 84-95: the tail of `handleError` after the retry block
did not return — throw a `BetterFetchError` when the original options set
`throw` (its body is `throwError ?? errorContext.error`, with a JS `null`
override falling through to the error object), else return
`{data: null, error}`. -/
def handleErrorTail (errorContext : ErrorContext) (options : Option FetchOptions)
    (throwErr : Option JValue) : M FetchOutput :=
  if (options.map (fun o => o.core.throw)).getD false then
    throwM (.betterFetchError errorContext.error.status errorContext.error.statusText
      (match throwErr with
       | some JValue.null => .fromErr errorContext.error
       | some v => .fromVal v
       | none => .fromErr errorContext.error))
  else
    pureM (.errorPair errorContext.error)

/-- fetch.ts lines 37-96 (`handleError`): run `onError` hooks, consult the
retry strategy on the ORIGINAL options' retry policy and attempt counter,
and either return the recursive `fetchFn` re-invocation with
`retryAttempt + 1` directly, or fall through to the throw-or-return
tail. -/
def handleError (fetchFn : String → Option FetchOptions → M FetchOutput)
    (errorContext : ErrorContext) (hooks : Hooks) (options : Option FetchOptions)
    (url : String) (_cloneResponse : Bool) (throwErr : Option JValue) : M FetchOutput :=
  bindM (runOnErrorHooks hooks.onError errorContext.error) (fun _ =>
    match options with
    | some opt =>
      match opt.core.retry with
      | some retryOpt =>
        let retryAttempt := opt.core.retryAttempt.getD 0
        let take := shouldAttemptRetry retryOpt retryAttempt errorContext.response
        bindM (emit (.retryDecision retryAttempt take)) (fun _ =>
          if take then
            bindM (runOnRetryHooks hooks.onRetry errorContext.response) (fun _ =>
            bindM (emit (.sleep (getDelay retryOpt retryAttempt))) (fun _ =>
            fetchFn url (some { opt with
              core := { opt.core with retryAttempt := some (retryAttempt + 1) } })))
          else handleErrorTail errorContext options throwErr)
      | none => handleErrorTail errorContext options throwErr
    | none => handleErrorTail errorContext options throwErr)

/-- fetch.ts lines 223-235: decode the OK response body.  JSON and text both
go through the context's pluggable text-to-value parser (default
`jsonParse`); the other response types read the abstracted raw body. -/
def decodeBody (env : Env) (context : Context) (response : Response) : M JValue :=
  if response.responseType = .json || response.responseType = .text then
    bindM (emit (.bodyRead response.bodyText)) (fun _ =>
      pureM ((context.opts.jsonParser.getD env.jsonParse) response.bodyText))
  else
    bindM (emit (.bodyRead response.bodyText)) (fun _ => pureM response.rawBody)

/-- Modelled from the spec: `parseStandardSchema` (utils.ts is not part of
the source under src/) validates the decoded value; a non-empty issue list
propagates as a rejection distinct from HTTP errors. -/
def parseStandardSchema (schema : JValue → Except (List String) JValue) (v : JValue) : M JValue :=
  match schema v with
  | .ok v1 => pureM v1
  | .error issues => throwM (.validationError issues)

/-- fetch.ts lines 98-292 (`betterFetch`), with explicit fuel bounding the
retry recursion depth.  Resolves plugins, builds the Request Context, runs
`onRequest` hooks, applies duplex inference, arms the timeout, invokes the
transport, and branches into abort re-throw / network-error handling /
`onResponse` hooks / the OK and non-OK branches. -/
def betterFetchFuel (env : Env) : Nat → String → Option FetchOptions → M FetchOutput
  | 0, _, _ => throwM .fuelExhausted
  | fuel + 1, url, options =>
    let init := initializePlugins url options
    let hooks := init.hooks
    let opts := init.options
    let signal : SignalSrc :=
      match opts.core.signal with
      | some sid => .caller sid
      | none => .internal
    let ctx0 : Context :=
      { opts := opts.core
        url := env.getURL init.url opts.core
        headers := env.getHeaders opts.core
        body := env.getBody opts.core
        method := env.getMethod init.url opts.core
        signal := signal }
    let context := duplexAdjust (runOnRequestHooks hooks.onRequest ctx0) options
    bindM (armTimeout opts.core) (fun _ =>
    bindM getCallCount (fun n =>
    bindM (emit (.transportCall n context.url context.signal context.opts.duplex)) (fun _ =>
    bindM incCallCount (fun _ =>
    match env.transport n context.url context with
    | .error fetchError =>
      bindM clearTimeoutM (fun _ =>
        if fetchError.isAbortDOMException then
          throwM (.rethrown fetchError)
        else
          handleError (betterFetchFuel env fuel)
            { response := none
              responseText := none
              request := context
              error :=
                { obj := none
                  status := 0
                  statusText := "Network Error"
                  message := some (if fetchError.isError then fetchError.message
                    else fetchError.asString)
                  cause := some fetchError } }
            hooks options url false none)
    | .ok response0 =>
      bindM clearTimeoutM (fun _ =>
      let response := runOnResponseHooks hooks.onResponse response0
      if response.ok then
        if context.method ≠ "HEAD" then
          bindM (decodeBody env context response) (fun data0 =>
          bindM
            (match context.opts.output with
             | some schema =>
               if ¬ context.opts.disableValidation then
                 parseStandardSchema schema data0
               else pureM data0
             | none => pureM data0)
          (fun data =>
          bindM (runOnSuccessHooks hooks.onSuccess) (fun _ =>
            if (options.map (fun o => o.core.throw)).getD false then
              pureM (.rawData data)
            else
              pureM (.okPair data))))
        else
          pureM (.okPair (.str ""))
      else
        let parser := (options.bind (fun o => o.core.jsonParser)).getD env.jsonParse
        bindM (emit (.bodyRead response.bodyText)) (fun _ =>
          let responseText := response.bodyText
          let isJSONResponse := env.isJSONParsable responseText
          let errorObject : Option JValue :=
            if isJSONResponse then some (parser responseText) else none
          handleError (betterFetchFuel env fuel)
            { response := some response
              responseText := some responseText
              request := context
              error :=
                { obj := errorObject
                  status := response.status
                  statusText := response.statusText } }
            hooks options url
            ((options.map (fun o => o.core.hookOptions.cloneResponse)).getD false)
            (if isJSONResponse then some (parser responseText)
             else some (.str responseText))))))))

/-- Run the pipeline from an empty trace. -/
def runFetch (env : Env) (fuel : Nat) (url : String) (options : Option FetchOptions) :
    Except FetchExn FetchOutput × St :=
  betterFetchFuel env fuel url options { trace := [], nCalls := 0 }

/-! ## Evaluation lemmas for the effect monad -/

@[simp] theorem bindM_apply {α β : Type} (x : M α) (f : α → M β) (s : St) :
    bindM x f s =
      match x s with
      | (.ok a, s1) => f a s1
      | (.error e, s1) => (.error e, s1) := rfl

@[simp] theorem pureM_apply {α : Type} (a : α) (s : St) : pureM a s = (.ok a, s) := rfl

@[simp] theorem throwM_apply {α : Type} (e : FetchExn) (s : St) :
    (throwM e : M α) s = (.error e, s) := rfl

@[simp] theorem emit_apply (ev : Event) (s : St) :
    emit ev s = (.ok (), { s with trace := s.trace ++ [ev] }) := rfl

@[simp] theorem getCallCount_apply (s : St) : getCallCount s = (.ok s.nCalls, s) := rfl

@[simp] theorem incCallCount_apply (s : St) :
    incCallCount s = (.ok (), { s with nCalls := s.nCalls + 1 }) := rfl

/-! ## Common environments for the verification scenarios -/

/-- A base environment: identity URL builder, body/method taken from the
options core, a transport supplied per scenario, and JSON utilities that
treat nothing as parseable (overridden where a scenario needs them). -/
def mkEnv (transport : Nat → String → Context → Except Thrown Response) : Env :=
  { getURL := fun u _ => u
    getBody := fun core => core.body
    getHeaders := fun _ => []
    getMethod := fun _ core => core.method.getD "GET"
    transport := transport
    jsonParse := fun _ => .null
    isJSONParsable := fun _ => false }

/-- Environment whose transport always throws the given value. -/
def throwEnv (t : Thrown) : Env := mkEnv (fun _ _ _ => .error t)

/-- The synthesized network error for a thrown value. -/
def networkErrVal (t : Thrown) : ErrVal :=
  { obj := none
    status := 0
    statusText := "Network Error"
    message := some (if t.isError then t.message else t.asString)
    cause := some t }

/-- C2: a non-abort transport failure produces the error-handling routine's
result for a synthesized error context with `response` absent, status 0,
statusText "Network Error", message from the thrown value and cause the
original thrown value; the `onError` hook observes that synthesized error. -/
theorem networkFailureSynthesized (t : Thrown) (h : t.isAbortDOMException = false) :
    runFetch (throwEnv t) 1 "https://api.test" (some { onError := some 7 }) =
      (.ok (.errorPair (networkErrVal t)),
       { trace := [.transportCall 0 "https://api.test" .internal none, .timeoutCleared,
                   .onErrorRun 7 0 "Network Error"],
         nCalls := 1 }) := by
  simp [runFetch, betterFetchFuel, initializePlugins, mkEnv, throwEnv, networkErrVal,
    runOnRequestHooks, runOnErrorHooks, duplexAdjust, armTimeout, clearTimeoutM,
    handleError, handleErrorTail, h]

theorem networkFailureSynthesized_witness :
    runFetch (throwEnv ⟨false, true, "ECONNREFUSED", "Error: ECONNREFUSED"⟩) 1
        "https://api.test" (some { onError := some 7 }) =
      (.ok (.errorPair
        { obj := none
          status := 0
          statusText := "Network Error"
          message := some "ECONNREFUSED"
          cause := some ⟨false, true, "ECONNREFUSED", "Error: ECONNREFUSED"⟩ }),
       { trace := [.transportCall 0 "https://api.test" .internal none, .timeoutCleared,
                   .onErrorRun 7 0 "Network Error"],
         nCalls := 1 }) :=
  networkFailureSynthesized ⟨false, true, "ECONNREFUSED", "Error: ECONNREFUSED"⟩ rfl

/-- Options configured with retry, `throw` and hooks, used to show the abort
path ignores all of them. -/
def abortScenarioOpts : FetchOptions :=
  { core := { throw := true, retry := some (.linear 3 10 none) }
    onError := some 7
    onRetry := some 8 }

/-- C3: an abort-signal exception from the transport is re-thrown unchanged:
the result is the original exception (not a structured `{data, error}`
shape and not a `BetterFetchError`), no `onError` hook runs, no retry
decision is made and no further transport invocation happens, even though
the options configure retry, `throw` and hooks. -/
theorem abortPropagatedUnchanged (t : Thrown) (h : t.isAbortDOMException = true) :
    runFetch (throwEnv t) 9 "https://api.test" (some abortScenarioOpts) =
      (.error (.rethrown t),
       { trace := [.transportCall 0 "https://api.test" .internal none, .timeoutCleared],
         nCalls := 1 }) := by
  simp [runFetch, betterFetchFuel, initializePlugins, mkEnv, throwEnv, abortScenarioOpts,
    runOnRequestHooks, duplexAdjust, armTimeout, clearTimeoutM, h]

theorem abortPropagatedUnchanged_witness :
    runFetch (throwEnv ⟨true, true, "The operation was aborted.", "AbortError"⟩) 9
        "https://api.test" (some abortScenarioOpts) =
      (.error (.rethrown ⟨true, true, "The operation was aborted.", "AbortError"⟩),
       { trace := [.transportCall 0 "https://api.test" .internal none, .timeoutCleared],
         nCalls := 1 }) :=
  abortPropagatedUnchanged ⟨true, true, "The operation was aborted.", "AbortError"⟩ rfl

/-- HEAD-call options: explicit HEAD method plus an output schema that
rejects every value, so that any validation attempt would be visible in
the result. -/
def headOpts : FetchOptions :=
  { core := { method := some "HEAD", output := some (fun _ => .error ["rejected"]) } }

/-- C4: a successful call whose method is HEAD returns `{data: "", error:
null}`; the trace contains no body read, and the configured
always-rejecting output schema leaves the result untouched, so the body is
neither read, decoded nor validated. -/
theorem headShortCircuit (r : Response) (h : r.ok = true) :
    runFetch (mkEnv (fun _ _ _ => .ok r)) 1 "https://api.test" (some headOpts) =
      (.ok (.okPair (.str "")),
       { trace := [.transportCall 0 "https://api.test" .internal none, .timeoutCleared],
         nCalls := 1 }) := by
  simp [runFetch, betterFetchFuel, initializePlugins, mkEnv, headOpts,
    runOnRequestHooks, runOnResponseHooks, duplexAdjust, armTimeout, clearTimeoutM, h]

theorem headShortCircuit_witness :
    runFetch (mkEnv (fun _ _ _ =>
        .ok { ok := true, status := 200, statusText := "OK",
              bodyText := "ignored body", rawBody := .null, responseType := .text }))
        1 "https://api.test" (some headOpts) =
      (.ok (.okPair (.str "")),
       { trace := [.transportCall 0 "https://api.test" .internal none, .timeoutCleared],
         nCalls := 1 }) :=
  headShortCircuit
    { ok := true, status := 200, statusText := "OK",
      bodyText := "ignored body", rawBody := .null, responseType := .text } rfl

/-- Environment returning a fixed response, with pluggable JSON utilities
(for the non-OK parsing scenarios). -/
def nonOkEnv (r : Response) (parseable : String → Bool) (p : String → JValue) : Env :=
  { mkEnv (fun _ _ _ => .ok r) with isJSONParsable := parseable, jsonParse := p }

/-- C5: on a non-OK response the pipeline reads the response text exactly
once; when the text is JSON-parseable, the parsed value is merged with the
response's status/statusText into the error object returned in
`{data: null, error}`; when it is not, the raw text becomes the thrown
error value (`BetterFetchError` body) while the structured fields still
carry status and statusText.  Stated for both `throw` unset (returned
shape) and `throw` set (thrown shape). -/
theorem nonOkErrorShape (r : Response) (h : r.ok = false)
    (parseable : String → Bool) (p : String → JValue) :
    (runFetch (nonOkEnv r parseable p) 1 "https://api.test" (some {}) =
      (.ok (.errorPair
        { obj := if parseable r.bodyText then some (p r.bodyText) else none
          status := r.status
          statusText := r.statusText }),
       { trace := [.transportCall 0 "https://api.test" .internal none, .timeoutCleared,
                   .bodyRead r.bodyText],
         nCalls := 1 }))
    ∧ (runFetch (nonOkEnv r parseable p) 1 "https://api.test"
          (some { core := { throw := true } }) =
      (.error (.betterFetchError r.status r.statusText
        (if parseable r.bodyText then
          (match p r.bodyText with
           | .null => .fromErr { obj := some JValue.null
                                 status := r.status
                                 statusText := r.statusText }
           | v => .fromVal v)
         else .fromVal (.str r.bodyText))),
       { trace := [.transportCall 0 "https://api.test" .internal none, .timeoutCleared,
                   .bodyRead r.bodyText],
         nCalls := 1 })) := by
  constructor
  · simp [runFetch, betterFetchFuel, initializePlugins, nonOkEnv, mkEnv,
      runOnRequestHooks, runOnResponseHooks, runOnErrorHooks, duplexAdjust,
      armTimeout, clearTimeoutM, handleError, handleErrorTail, h]
  · by_cases hP : parseable r.bodyText
    · cases hv : p r.bodyText <;>
        simp [runFetch, betterFetchFuel, initializePlugins, nonOkEnv, mkEnv,
          runOnRequestHooks, runOnResponseHooks, runOnErrorHooks, duplexAdjust,
          armTimeout, clearTimeoutM, handleError, handleErrorTail, h, hP, hv]
    · simp [runFetch, betterFetchFuel, initializePlugins, nonOkEnv, mkEnv,
        runOnRequestHooks, runOnResponseHooks, runOnErrorHooks, duplexAdjust,
        armTimeout, clearTimeoutM, handleError, handleErrorTail, h, hP]

theorem nonOkErrorShape_witness :
    (runFetch (nonOkEnv
        { ok := false, status := 404, statusText := "Not Found",
          bodyText := "nope", rawBody := .null, responseType := .text }
        (fun _ => false) (fun _ => .null)) 1 "https://api.test" (some {}) =
      (.ok (.errorPair { obj := none, status := 404, statusText := "Not Found" }),
       { trace := [.transportCall 0 "https://api.test" .internal none, .timeoutCleared,
                   .bodyRead "nope"],
         nCalls := 1 }))
    ∧ (runFetch (nonOkEnv
        { ok := false, status := 404, statusText := "Not Found",
          bodyText := "nope", rawBody := .null, responseType := .text }
        (fun _ => false) (fun _ => .null)) 1 "https://api.test"
          (some { core := { throw := true } }) =
      (.error (.betterFetchError 404 "Not Found" (.fromVal (.str "nope"))),
       { trace := [.transportCall 0 "https://api.test" .internal none, .timeoutCleared,
                   .bodyRead "nope"],
         nCalls := 1 })) :=
  nonOkErrorShape
    { ok := false, status := 404, statusText := "Not Found",
      bodyText := "nope", rawBody := .null, responseType := .text }
    rfl (fun _ => false) (fun _ => .null)

/-- A fixed OK JSON response used by the success-path scenarios. -/
def okResp : Response :=
  { ok := true, status := 200, statusText := "OK",
    bodyText := "[1]", rawBody := .null, responseType := .json }

/-- Environment returning `okResp`, whose default JSON parser wraps the text
back up as a string value. -/
def okJsonEnv : Env :=
  { mkEnv (fun _ _ _ => .ok okResp) with jsonParse := fun s => .str s }

/-- C6: a configured output schema that rejects the decoded value makes the
call propagate a validation error even though `throw` is unset and a retry
policy is configured: the result is a rejection (not `{data: null,
error}`), no retry decision is evaluated and no further transport
invocation happens. -/
theorem validationFailurePropagates (f : JValue → Except (List String) JValue)
    (issues : List String) (h : f (.str "[1]") = .error issues) :
    runFetch okJsonEnv 5 "https://api.test"
      (some { core := { output := some f, retry := some (.linear 5 0 none) } }) =
      (.error (.validationError issues),
       { trace := [.transportCall 0 "https://api.test" .internal none, .timeoutCleared,
                   .bodyRead "[1]"],
         nCalls := 1 }) := by
  simp [runFetch, betterFetchFuel, initializePlugins, okJsonEnv, mkEnv, okResp,
    runOnRequestHooks, runOnResponseHooks, runOnSuccessHooks, duplexAdjust,
    armTimeout, clearTimeoutM, decodeBody, parseStandardSchema, h]

theorem validationFailurePropagates_witness :
    runFetch okJsonEnv 5 "https://api.test"
      (some { core := { output := some (fun _ => .error ["expected object"])
                        retry := some (.linear 5 0 none) } }) =
      (.error (.validationError ["expected object"]),
       { trace := [.transportCall 0 "https://api.test" .internal none, .timeoutCleared,
                   .bodyRead "[1]"],
         nCalls := 1 }) :=
  validationFailurePropagates (fun _ => .error ["expected object"]) ["expected object"] rfl

/-- A replacement Request Context with fields unrelated to the original
call's (no output schema, different URL). -/
def replacementCtx : Context :=
  { opts := {}
    url := "https://replaced"
    headers := []
    body := none
    method := "GET"
    signal := .internal }

/-- Options whose original core carries an always-rejecting output schema
and a timeout, and whose call-site `onRequest` hook replaces the whole
context with `replacementCtx`. -/
def c7Opts : FetchOptions :=
  { core := { output := some (fun _ => .error ["from original"]), timeout := some 50 }
    onRequest := some (fun _ => some replacementCtx) }

/-- C7: an `onRequest` hook returning a replacement object wholesale
substitutes the Request Context: (1) the remaining `onRequest` hooks run
on exactly the replacement, the original context being discarded; (2) the
transport observes the replacement (its URL appears in the transport
event) and fields absent from the replacement are absent — the original's
always-rejecting output schema does not apply, so the call succeeds. -/
theorem onRequestReplacementWholesale (f : OnRequestHook)
    (rest : List (Option OnRequestHook)) (c c' : Context) (h : f c = some c') :
    runOnRequestHooks (some f :: rest) c = runOnRequestHooks rest c'
    ∧ runFetch okJsonEnv 1 "https://original" (some c7Opts) =
      (.ok (.okPair (.str "[1]")),
       { trace := [.timeoutArmed 50 .internal,
                   .transportCall 0 "https://replaced" .internal none, .timeoutCleared,
                   .bodyRead "[1]"],
         nCalls := 1 }) := by
  constructor
  · simp [runOnRequestHooks, h]
  · simp [runFetch, betterFetchFuel, initializePlugins, okJsonEnv, mkEnv, okResp, c7Opts,
      replacementCtx, runOnRequestHooks, runOnResponseHooks, runOnSuccessHooks,
      duplexAdjust, armTimeout, clearTimeoutM, decodeBody]

theorem onRequestReplacementWholesale_witness :
    runOnRequestHooks [some (fun _ => some replacementCtx), none] replacementCtx =
        runOnRequestHooks [none] replacementCtx
    ∧ runFetch okJsonEnv 1 "https://original" (some c7Opts) =
      (.ok (.okPair (.str "[1]")),
       { trace := [.timeoutArmed 50 .internal,
                   .transportCall 0 "https://replaced" .internal none, .timeoutCleared,
                   .bodyRead "[1]"],
         nCalls := 1 }) :=
  onRequestReplacementWholesale (fun _ => some replacementCtx) [none]
    replacementCtx replacementCtx rfl

/-- Options whose body is a web-style stream: it has a `pipeTo` capability
but no Node-style `pipe` function, and no explicit duplex is set. -/
def webStreamBodyOpts : FetchOptions :=
  { core := { body := some { hasPipe := false, hasPipeTo := true } } }

/-- C8 counterexample: a body that "looks like a stream" through its
pipe-to capability alone does NOT get `duplex` set to `"half"` — the
code's first disjunct checks a `pipeTo` property on the Request Context
object, not on the body, so the transport observes `duplex = none` for a
web-stream body, contradicting the claim at this input. -/
theorem duplexWebStreamCounterexample :
    runFetch okJsonEnv 1 "https://api.test" (some webStreamBodyOpts) =
      (.ok (.okPair (.str "[1]")),
       { trace := [.transportCall 0 "https://api.test" .internal none, .timeoutCleared,
                   .bodyRead "[1]"],
         nCalls := 1 })
    ∧ (none : Option String) ≠ some "half" := by
  constructor
  · simp [runFetch, betterFetchFuel, initializePlugins, okJsonEnv, mkEnv, okResp,
      webStreamBodyOpts, runOnRequestHooks, runOnResponseHooks, runOnSuccessHooks,
      duplexAdjust, armTimeout, clearTimeoutM, decodeBody]
  · simp

/-- Options whose body is a Node-style pipe stream. -/
def pipeStreamBodyOpts : FetchOptions :=
  { core := { body := some { hasPipe := true, hasPipeTo := false } } }

/-- C8 (amended): when the Request Context object itself exposes a callable
`pipeTo` property, or the caller's original options body is a pipe-style
stream (`typeof body.pipe === "function"`), and the context has no
explicit duplex setting, the context's duplex is set to `"half"`; the
pipeline applies this before invoking the transport (the transport event
observes `duplex = some "half"` for a pipe-style body). -/
theorem duplexHalfInference (c : Context) (o : Option FetchOptions)
    (h : (c.opts.hasPipeTo
      || (((o.bind (fun x => x.core.body)).map (fun b => b.hasPipe)).getD false)) = true)
    (hd : c.opts.duplex = none) :
    (duplexAdjust c o).opts.duplex = some "half"
    ∧ runFetch okJsonEnv 1 "https://api.test" (some pipeStreamBodyOpts) =
      (.ok (.okPair (.str "[1]")),
       { trace := [.transportCall 0 "https://api.test" .internal (some "half"),
                   .timeoutCleared, .bodyRead "[1]"],
         nCalls := 1 }) := by
  constructor
  · unfold duplexAdjust
    rw [if_pos h]
    simp [hd]
  · simp [runFetch, betterFetchFuel, initializePlugins, okJsonEnv, mkEnv, okResp,
      pipeStreamBodyOpts, runOnRequestHooks, runOnResponseHooks, runOnSuccessHooks,
      duplexAdjust, armTimeout, clearTimeoutM, decodeBody]

theorem duplexHalfInference_witness :
    (duplexAdjust
      { opts := {}, url := "u", headers := [], body := none, method := "GET",
        signal := .internal }
      (some pipeStreamBodyOpts)).opts.duplex = some "half"
    ∧ runFetch okJsonEnv 1 "https://api.test" (some pipeStreamBodyOpts) =
      (.ok (.okPair (.str "[1]")),
       { trace := [.transportCall 0 "https://api.test" .internal (some "half"),
                   .timeoutCleared, .bodyRead "[1]"],
         nCalls := 1 }) :=
  duplexHalfInference
    { opts := {}, url := "u", headers := [], body := none, method := "GET",
      signal := .internal }
    (some pipeStreamBodyOpts) rfl rfl

/-- A fixed failing (HTTP 500) response. -/
def err500 : Response :=
  { ok := false, status := 500, statusText := "Internal Server Error",
    bodyText := "oops", rawBody := .null, responseType := .text }

/-- Environment whose transport always yields the 500 response. -/
def err500Env : Env := mkEnv (fun _ _ _ => .ok err500)

/-- A plugin whose init merges a retry policy and the `throw` flag into the
resolved options. -/
def injectRetryPlugin : Plugin :=
  { init := fun u c => (u, { c with retry := some (.linear 5 0 none), throw := true }) }

/-- A plugin whose init strips the retry policy from the resolved options. -/
def stripRetryPlugin : Plugin :=
  { init := fun u c => (u, { c with retry := none }) }

/-- C9: the error-handling routine reads the retry policy and the `throw`
flag from the caller's original options, not from the plugin-resolved
options.  (1) A plugin-injected retry policy and `throw` flag have no
effect: a failing call with plain original options performs a single
transport invocation, evaluates no retry decision and returns `{data:
null, error}` instead of throwing.  (2) Conversely, a plugin that strips
the caller's retry policy from the resolved options does not prevent
retries: the original policy of count 2 still drives three transport
invocations. -/
theorem handleErrorUsesOriginalOptions :
    runFetch err500Env 9 "https://api.test" (some { plugins := [injectRetryPlugin] }) =
      (.ok (.errorPair { obj := none, status := 500, statusText := "Internal Server Error" }),
       { trace := [.transportCall 0 "https://api.test" .internal none, .timeoutCleared,
                   .bodyRead "oops"],
         nCalls := 1 })
    ∧ runFetch err500Env 9 "https://api.test"
        (some { core := { retry := some (.linear 2 0 none) }
                plugins := [stripRetryPlugin] }) =
      (.ok (.errorPair { obj := none, status := 500, statusText := "Internal Server Error" }),
       { trace := [.transportCall 0 "https://api.test" .internal none, .timeoutCleared,
                   .bodyRead "oops", .retryDecision 0 true, .sleep 0,
                   .transportCall 1 "https://api.test" .internal none, .timeoutCleared,
                   .bodyRead "oops", .retryDecision 1 true, .sleep 0,
                   .transportCall 2 "https://api.test" .internal none, .timeoutCleared,
                   .bodyRead "oops", .retryDecision 2 false],
         nCalls := 3 }) := by
  constructor
  · simp [runFetch, betterFetchFuel, initializePlugins, err500Env, mkEnv, err500,
      injectRetryPlugin, runOnRequestHooks, runOnResponseHooks, runOnErrorHooks,
      duplexAdjust, armTimeout, clearTimeoutM, handleError, handleErrorTail]
  · simp [runFetch, betterFetchFuel, initializePlugins, err500Env, mkEnv, err500,
      stripRetryPlugin, runOnRequestHooks, runOnResponseHooks, runOnErrorHooks,
      runOnRetryHooks, duplexAdjust, armTimeout, clearTimeoutM, handleError, handleErrorTail,
      shouldAttemptRetry, statusAllowed, getDelay]

/-- C10: when the options carry a caller-supplied cancellation signal, the
transport call is wired to that signal while the configured timeout arms
the internally created controller; the two targets are distinct, so
timeout expiry cannot abort the transport call. -/
theorem callerSignalWiring (sid ms : Nat) :
    runFetch (mkEnv (fun _ _ _ => .ok okResp)) 1 "https://api.test"
      (some { core := { signal := some sid, timeout := some ms } }) =
      (.ok (.okPair .null),
       { trace := [.timeoutArmed ms .internal,
                   .transportCall 0 "https://api.test" (.caller sid) none,
                   .timeoutCleared, .bodyRead "[1]"],
         nCalls := 1 })
    ∧ SignalSrc.caller sid ≠ SignalSrc.internal := by
  constructor
  · simp [runFetch, betterFetchFuel, initializePlugins, mkEnv, okResp,
      runOnRequestHooks, runOnResponseHooks, runOnSuccessHooks, duplexAdjust,
      armTimeout, clearTimeoutM, decodeBody]
  · simp

/-- A fixed non-abort transport failure. -/
def netThrown : Thrown :=
  { isAbortDOMException := false, isError := true,
    message := "ECONNREFUSED", asString := "Error: ECONNREFUSED" }

/-- Environment whose transport always fails with `netThrown`. -/
def netFailEnv : Env := throwEnv netThrown

/-- Options with a linear retry policy of the given count and interval, no
status-code allow-list, and the given attempt counter. -/
def linOpts (count interval : Nat) (attempt : Option Nat) : FetchOptions :=
  { core := { retry := some (.linear count interval none), retryAttempt := attempt } }

/-- One attempt of the linear-retry scenario, starting at attempt `a` with
`fuel + 1` fuel: the transport fails, the retry decision for `a` is
evaluated, and either the pipeline recurses with `retryAttempt = a + 1`
(when `a < count`) or gives up with the network error. -/
theorem linStep (count interval a fuel : Nat) (s : St) :
    betterFetchFuel netFailEnv (fuel + 1) "https://api.test"
        (some (linOpts count interval (some a))) s =
      if a < count then
        betterFetchFuel netFailEnv fuel "https://api.test"
          (some (linOpts count interval (some (a + 1))))
          { trace := s.trace ++
              [.transportCall s.nCalls "https://api.test" .internal none, .timeoutCleared,
               .retryDecision a true, .sleep interval],
            nCalls := s.nCalls + 1 }
      else
        (.ok (.errorPair (networkErrVal netThrown)),
         { trace := s.trace ++
             [.transportCall s.nCalls "https://api.test" .internal none, .timeoutCleared,
              .retryDecision a false],
           nCalls := s.nCalls + 1 }) := by
  by_cases h : a < count <;>
    simp [betterFetchFuel, initializePlugins, netFailEnv, throwEnv, mkEnv, netThrown,
      linOpts, networkErrVal, runOnRequestHooks, runOnErrorHooks, runOnRetryHooks,
      duplexAdjust, armTimeout, clearTimeoutM, handleError, handleErrorTail, shouldAttemptRetry,
      statusAllowed, getDelay, h]

/-- The first attempt with the counter unset behaves as attempt 0. -/
theorem linStart (count interval fuel : Nat) (s : St) :
    betterFetchFuel netFailEnv (fuel + 1) "https://api.test"
        (some (linOpts count interval none)) s =
      if 0 < count then
        betterFetchFuel netFailEnv fuel "https://api.test"
          (some (linOpts count interval (some 1)))
          { trace := s.trace ++
              [.transportCall s.nCalls "https://api.test" .internal none, .timeoutCleared,
               .retryDecision 0 true, .sleep interval],
            nCalls := s.nCalls + 1 }
      else
        (.ok (.errorPair (networkErrVal netThrown)),
         { trace := s.trace ++
             [.transportCall s.nCalls "https://api.test" .internal none, .timeoutCleared,
              .retryDecision 0 false],
           nCalls := s.nCalls + 1 }) := by
  by_cases h : 0 < count <;>
    simp [betterFetchFuel, initializePlugins, netFailEnv, throwEnv, mkEnv, netThrown,
      linOpts, networkErrVal, runOnRequestHooks, runOnErrorHooks, runOnRetryHooks,
      duplexAdjust, armTimeout, clearTimeoutM, handleError, handleErrorTail, shouldAttemptRetry,
      statusAllowed, getDelay, h]

/-- The events of the linear-retry scenario from attempt `a` onward, with
`c` prior transport invocations. -/
def linTrace (count interval a c : Nat) : List Event :=
  if h : a < count then
    [.transportCall c "https://api.test" .internal none, .timeoutCleared,
     .retryDecision a true, .sleep interval] ++ linTrace count interval (a + 1) (c + 1)
  else
    [.transportCall c "https://api.test" .internal none, .timeoutCleared,
     .retryDecision a false]
termination_by count - a

/-- Number of transport invocations recorded in a trace. -/
def countTransport : List Event → Nat
  | [] => 0
  | .transportCall _ _ _ _ :: es => countTransport es + 1
  | .timeoutArmed _ _ :: es => countTransport es
  | .timeoutCleared :: es => countTransport es
  | .bodyRead _ :: es => countTransport es
  | .onSuccessRun _ :: es => countTransport es
  | .onErrorRun _ _ _ :: es => countTransport es
  | .onRetryRun _ :: es => countTransport es
  | .retryDecision _ _ :: es => countTransport es
  | .sleep _ :: es => countTransport es

/-- The retry decisions (attempt index, taken) recorded in a trace, in
order. -/
def retryDecisions : List Event → List (Nat × Bool)
  | [] => []
  | .retryDecision a t :: es => (a, t) :: retryDecisions es
  | .transportCall _ _ _ _ :: es => retryDecisions es
  | .timeoutArmed _ _ :: es => retryDecisions es
  | .timeoutCleared :: es => retryDecisions es
  | .bodyRead _ :: es => retryDecisions es
  | .onSuccessRun _ :: es => retryDecisions es
  | .onErrorRun _ _ _ :: es => retryDecisions es
  | .onRetryRun _ :: es => retryDecisions es
  | .sleep _ :: es => retryDecisions es

theorem countTransport_linTrace (count interval a c : Nat) :
    countTransport (linTrace count interval a c) = count - a + 1 := by
  rw [linTrace]
  split
  · next h =>
      have ih := countTransport_linTrace count interval (a + 1) (c + 1)
      simp [countTransport, ih]
      omega
  · next h =>
      simp [countTransport]
      omega
termination_by count - a

theorem retryDecisions_linTrace (count interval a c : Nat) :
    retryDecisions (linTrace count interval a c) =
      (List.range' a (count - a + 1)).map (fun x => (x, decide (x < count))) := by
  rw [linTrace]
  split
  · next h =>
      have ih := retryDecisions_linTrace count interval (a + 1) (c + 1)
      have hr : count - a + 1 = (count - (a + 1) + 1) + 1 := by omega
      rw [hr, List.range']
      simp [retryDecisions, ih, h]
  · next h =>
      have hr : count - a + 1 = 1 := by omega
      rw [hr, List.range']
      simp [retryDecisions, List.range']
      omega
termination_by count - a

/-- The linear-retry scenario from any attempt `a ≤ count`, with enough
fuel, gives up with the network error after evaluating attempts
`a .. count` and performing `count - a + 1` transport invocations,
appending exactly `linTrace` to the trace. -/
theorem linRun (count interval : Nat) :
    ∀ fuel a s, a ≤ count → count - a < fuel →
    betterFetchFuel netFailEnv fuel "https://api.test"
        (some (linOpts count interval (some a))) s =
      (.ok (.errorPair (networkErrVal netThrown)),
       { trace := s.trace ++ linTrace count interval a s.nCalls,
         nCalls := s.nCalls + (count - a) + 1 }) := by
  intro fuel
  induction fuel with
  | zero => intro a s _ hf; omega
  | succ fuel ih =>
    intro a s ha hf
    rw [linStep]
    by_cases h : a < count
    · rw [if_pos h, ih (a + 1) _ (by omega) (by omega)]
      conv_rhs => rw [linTrace]
      rw [dif_pos h]
      simp [List.append_assoc]
      omega
    · rw [if_neg h]
      rw [linTrace, dif_neg h]
      have h0 : count - a = 0 := by omega
      simp [h0]

/-- C1: with a linear retry policy of count N (no status allow-list) and an
always-failing transport, the call gives up with the network error after
exactly N retries: the run's trace is `linTrace`, which contains N + 1
transport invocations and evaluates retry decisions `(0, true) ..
(N - 1, true), (N, false)` — attempts `0 .. N-1` taken, attempt N not;
and each taken retry re-invokes the whole pipeline with `retryAttempt`
incremented by one. -/
theorem linearRetryExactCount (count interval fuel : Nat) (hf : count < fuel) :
    runFetch netFailEnv fuel "https://api.test" (some (linOpts count interval none)) =
      (.ok (.errorPair (networkErrVal netThrown)),
       { trace := linTrace count interval 0 0, nCalls := count + 1 })
    ∧ countTransport (linTrace count interval 0 0) = count + 1
    ∧ retryDecisions (linTrace count interval 0 0) =
        (List.range' 0 (count + 1)).map (fun a => (a, decide (a < count)))
    ∧ (∀ a s g, a < count →
        betterFetchFuel netFailEnv (g + 1) "https://api.test"
            (some (linOpts count interval (some a))) s =
          betterFetchFuel netFailEnv g "https://api.test"
            (some (linOpts count interval (some (a + 1))))
            { trace := s.trace ++
                [.transportCall s.nCalls "https://api.test" .internal none, .timeoutCleared,
                 .retryDecision a true, .sleep interval],
              nCalls := s.nCalls + 1 }) := by
  refine ⟨?_, ?_, ?_, ?_⟩
  · cases fuel with
    | zero => omega
    | succ f =>
      rw [runFetch, linStart]
      by_cases h : 0 < count
      · rw [if_pos h, linRun count interval f 1 _ (by omega) (by omega)]
        conv_rhs => rw [linTrace]
        rw [dif_pos h]
        simp
        omega
      · rw [if_neg h]
        have h0 : count = 0 := by omega
        subst h0
        rw [linTrace]
        simp
  · have h := countTransport_linTrace count interval 0 0
    simpa using h
  · have h := retryDecisions_linTrace count interval 0 0
    simpa using h
  · intro a s g hA
    rw [linStep, if_pos hA]

theorem linearRetryExactCount_witness :
    (runFetch netFailEnv 4 "https://api.test" (some (linOpts 2 7 none)) =
      (.ok (.errorPair (networkErrVal netThrown)),
       { trace := linTrace 2 7 0 0, nCalls := 3 })
    ∧ countTransport (linTrace 2 7 0 0) = 3
    ∧ retryDecisions (linTrace 2 7 0 0) = [(0, true), (1, true), (2, false)]
    ∧ betterFetchFuel netFailEnv 3 "https://api.test" (some (linOpts 2 7 (some 0)))
          { trace := [], nCalls := 0 } =
        betterFetchFuel netFailEnv 2 "https://api.test" (some (linOpts 2 7 (some 1)))
          { trace := [.transportCall 0 "https://api.test" .internal none, .timeoutCleared,
                      .retryDecision 0 true, .sleep 7],
            nCalls := 1 })
    ∧ linTrace 2 7 0 0 =
        [.transportCall 0 "https://api.test" .internal none, .timeoutCleared,
         .retryDecision 0 true, .sleep 7,
         .transportCall 1 "https://api.test" .internal none, .timeoutCleared,
         .retryDecision 1 true, .sleep 7,
         .transportCall 2 "https://api.test" .internal none, .timeoutCleared,
         .retryDecision 2 false] := by
  obtain ⟨h1, h2, h3, h4⟩ := linearRetryExactCount 2 7 4 (by omega)
  refine ⟨⟨h1, h2, ?_, ?_⟩, ?_⟩
  · rw [h3]
    simp [List.range']
  · exact h4 0 { trace := [], nCalls := 0 } 2 (by omega)
  · rw [linTrace]
    rw [dif_pos (by omega : (0:Nat) < 2)]
    rw [linTrace]
    rw [dif_pos (by omega : (1:Nat) < 2)]
    rw [linTrace]
    rw [dif_neg (by omega : ¬ (2:Nat) < 2)]
    simp

theorem callerSignalWiring_witness :
    (runFetch (mkEnv (fun _ _ _ => .ok okResp)) 1 "https://api.test"
      (some { core := { signal := some 5, timeout := some 100 } }) =
      (.ok (.okPair .null),
       { trace := [.timeoutArmed 100 .internal,
                   .transportCall 0 "https://api.test" (.caller 5) none,
                   .timeoutCleared, .bodyRead "[1]"],
         nCalls := 1 })
    ∧ SignalSrc.caller 5 ≠ SignalSrc.internal) :=
  callerSignalWiring 5 100
